import Mathlib

/-
Verification of the multi-tenant WhatsApp webhook ingestion and routing
pipeline of the SOCIALIFY backend.

The development shallowly embeds the Python sources:
  src/utils/encryption.py                 (Credential Vault)
  src/services/whatsappServices/multi_tenant_whatsapp_service.py
                                          (Tenant Directory, Ingestion Pipeline,
                                           Outbound Gateway, Enrichment Dispatcher)
  src/api/v2/whatsapp.py                  (webhook verification endpoint)
  src/db/models.py                        (relational data model)

Python JSON values are embedded as the `Json` type; Python exceptions are
embedded as `Except PyExc`; the database session is embedded as an explicit
`DB` state threaded through the operations, with the uniqueness and
non-null constraints declared in src/db/models.py enforced by the
insert operation.  Third-party cryptographic primitives (Fernet, SHA-256,
PBKDF2) are modelled symbolically, as explained at their definitions.
-/

namespace Socialify

/- ------------------------------------------------------------------ -/
/- Python JSON values                                                  -/
/- ------------------------------------------------------------------ -/

mutual

/-- A Python value as delivered by JSON webhook payloads: `None`, `bool`,
`int`, `str`, `list`, `dict`.  Objects are ordered field lists, mirroring
Python dict insertion order; JSON floats do not occur in the modelled
payload fields and are outside the embedding. -/
inductive Json where
  | null
  | bool (b : Bool)
  | num (n : Int)
  | str (s : String)
  | arr (elems : JsonList)
  | obj (fields : JsonFields)
  deriving Repr, DecidableEq

/-- Lists of `Json` values (spelled out so that all recursion over `Json`
is plain mutual structural recursion). -/
inductive JsonList where
  | nil
  | cons (hd : Json) (tl : JsonList)
  deriving Repr, DecidableEq

/-- Field lists of `Json` objects. -/
inductive JsonFields where
  | nil
  | cons (key : String) (val : Json) (tl : JsonFields)
  deriving Repr, DecidableEq

end

/-- Convert a `JsonList` to a Lean list. -/
def JsonList.toList : JsonList → List Json
  | .nil => []
  | .cons x tl => x :: tl.toList

/-- Build a `JsonList` from a Lean list. -/
def JsonList.ofList : List Json → JsonList
  | [] => .nil
  | x :: tl => .cons x (JsonList.ofList tl)

/-- Number of elements of a `JsonList`. -/
def JsonList.length : JsonList → Nat
  | .nil => 0
  | .cons _ tl => tl.length + 1

/-- Build object fields from a Lean association list. -/
def JsonFields.ofList : List (String × Json) → JsonFields
  | [] => .nil
  | (k, v) :: tl => .cons k v (JsonFields.ofList tl)

/-- First value bound to `key`, mirroring Python dict lookup (dict keys are
unique, so first match is the match). -/
def JsonFields.lookup : JsonFields → String → Option Json
  | .nil, _ => none
  | .cons k v tl, key => if k = key then some v else tl.lookup key

/-- Number of fields. -/
def JsonFields.length : JsonFields → Nat
  | .nil => 0
  | .cons _ _ tl => tl.length + 1

/-- Shorthand for array literals. -/
def jarr (xs : List Json) : Json := .arr (JsonList.ofList xs)

/-- Shorthand for object literals. -/
def jobj (kvs : List (String × Json)) : Json := .obj (JsonFields.ofList kvs)

/-- Python truthiness of a JSON value (`bool(x)`): `None`, `False`, `0`,
empty string, empty list and empty dict are falsy. -/
def Json.truthy : Json → Bool
  | .null => false
  | .bool b => b
  | .num n => decide (n ≠ 0)
  | .str s => decide (s ≠ "")
  | .arr .nil => false
  | .arr _ => true
  | .obj .nil => false
  | .obj _ => true

/-- Whether the value is a Python dict (`isinstance(x, dict)`). -/
def Json.isObj : Json → Bool
  | .obj _ => true
  | _ => false

/-- `x.get(key, dflt)` restricted to dicts; the default is returned for a
missing key and for a non-dict receiver (callers use this form only where a
dict is already guaranteed). -/
def Json.objGetD (j : Json) (key : String) (dflt : Json) : Json :=
  match j with
  | .obj kvs => (kvs.lookup key).getD dflt
  | _ => dflt

/-- `key in x` for a dict receiver; `false` otherwise. -/
def Json.hasKey (j : Json) (key : String) : Bool :=
  match j with
  | .obj kvs => (kvs.lookup key).isSome
  | _ => false

/- ------------------------------------------------------------------ -/
/- Python exceptions                                                   -/
/- ------------------------------------------------------------------ -/

/-- The Python exceptions raised along the modelled code paths.
`whatsAppError` is `utils.errors.WhatsAppError`; `integrityError` is the
database driver error raised when a flush violates a table constraint. -/
inductive PyExc where
  | attributeError
  | typeError
  | valueError
  | osError
  | overflowError
  | keyError (key : String)
  | indexError
  | integrityError (detail : String)
  | whatsAppError (message : String)
  deriving Repr, DecidableEq

/-- `str(e)` of an exception, as interpolated into wrapped error messages.
For `KeyError` Python prints the repr of the key; for the builtin
exception classes whose exact text the claims never inspect, the text is
abbreviated (`OSError`/`OverflowError` carry the messages raised by
`datetime.fromtimestamp` on 64-bit Linux). -/
def PyExc.msg : PyExc → String
  | .attributeError => "AttributeError"
  | .typeError => "TypeError"
  | .valueError => "ValueError"
  | .osError => "[Errno 22] Invalid argument"
  | .overflowError => "timestamp out of range for platform time_t"
  | .keyError k => "\x27" ++ k ++ "\x27"
  | .indexError => "list index out of range"
  | .integrityError d => d
  | .whatsAppError m => m

/-- `x.get(key, dflt)`: `AttributeError` when the receiver is not a dict. -/
def Json.pyGet (j : Json) (key : String) (dflt : Json) : Except PyExc Json :=
  match j with
  | .obj _ => .ok (j.objGetD key dflt)
  | _ => .error .attributeError

/-- `x.get(key)` (Python default `None`). -/
def Json.pyGetN (j : Json) (key : String) : Except PyExc Json :=
  j.pyGet key .null

/-- `x[key]` subscription with a string key: `KeyError` on a dict without
the key, `TypeError` on non-dict receivers (string/list indices must be
integers). -/
def Json.pyItem (j : Json) (key : String) : Except PyExc Json :=
  match j with
  | .obj kvs =>
      match kvs.lookup key with
      | some v => .ok v
      | none => .error (.keyError key)
  | _ => .error .typeError

/-- `x[i]` subscription with a non-negative integer index. -/
def Json.pyIndex (j : Json) (i : Nat) : Except PyExc Json :=
  match j with
  | .arr xs =>
      match xs.toList.get? i with
      | some v => .ok v
      | none => .error .indexError
  | .str s =>
      match s.toList.get? i with
      | some c => .ok (.str (String.mk [c]))
      | none => .error .indexError
  | .obj kvs =>
      match kvs.lookup (toString i) with
      | some v => .ok v
      | none => .error (.keyError (toString i))
  | _ => .error .typeError

/-- `len(x)`: defined for strings, lists and dicts; `TypeError` otherwise. -/
def Json.pyLen : Json → Except PyExc Nat
  | .str s => .ok s.length
  | .arr xs => .ok xs.length
  | .obj kvs => .ok kvs.length
  | _ => .error .typeError

/-- `for v in x`: lists iterate their elements, strings their characters,
dicts their keys; other values raise `TypeError`. -/
def Json.pyIter : Json → Except PyExc (List Json)
  | .arr xs => .ok xs.toList
  | .str s => .ok (s.toList.map (fun c => .str (String.mk [c])))
  | .obj kvs => .ok (pyIterKeys kvs)
  | _ => .error .typeError
where
  /-- Keys of a field list, as JSON strings. -/
  pyIterKeys : JsonFields → List Json
  | .nil => []
  | .cons k _ tl => .str k :: pyIterKeys tl

/-- Substring test, used by the `in` operator on strings. -/
def strContains (s needle : String) : Bool :=
  (s.splitOn needle).length ≥ 2

/-- `key in x` as an expression: key lookup on dicts, membership on lists,
substring test on strings, `TypeError` otherwise. -/
def Json.pyContains (j : Json) (key : String) : Except PyExc Bool :=
  match j with
  | .obj kvs => .ok (kvs.lookup key).isSome
  | .arr xs => .ok (xs.toList.contains (.str key))
  | .str s => .ok (strContains s key)
  | _ => .error .typeError

/-- Continuation of a Python base-10 integer literal after its first
digit: digits, with single underscores allowed only between digits
(`int("1_000")` is 1000, `int("1__0")` and `int("1_")` raise). -/
def int_digits_tail : List Char → Bool
  | [] => true
  | ['_'] => false
  | '_' :: c :: rest => c.isDigit && int_digits_tail rest
  | c :: rest => c.isDigit && int_digits_tail rest

/-- A Python base-10 integer literal body: one digit, then
`int_digits_tail`. -/
def int_digits : List Char → Bool
  | [] => false
  | c :: rest => c.isDigit && int_digits_tail rest

/-- Numeric value of a digit/underscore run. -/
def digits_value (l : List Char) : Nat :=
  (l.filter fun c => decide (c ≠ '_')).foldl (fun acc c => acc * 10 + (c.toNat - 48)) 0

/-- `int(s)` for a string: strip surrounding whitespace, optional sign,
then base-10 digits (single underscores between digits allowed);
`ValueError` otherwise.  Unicode digits and non-ASCII whitespace are
outside the embedding. -/
def parse_int_string (s : String) : Option Int :=
  let t := s.trim
  let signed : Int × String :=
    if t.startsWith "-" then (-1, t.drop 1)
    else if t.startsWith "+" then (1, t.drop 1)
    else (1, t)
  if int_digits signed.2.toList then
    some (signed.1 * (digits_value signed.2.toList : Int))
  else none

/-- `int(x)` on a payload value (line 897 of the service): integers are
returned, booleans coerce to 0/1, strings are parsed, and `None`, lists
and dicts raise `TypeError`.  (`ValueError`/`TypeError` from this call
are the two exception classes the timestamp block catches.) -/
def Json.pyToInt : Json → Except PyExc Int
  | .num n => .ok n
  | .bool b => .ok (if b then 1 else 0)
  | .str s =>
      match parse_int_string s with
      | some n => .ok n
      | none => .error .valueError
  | _ => .error .typeError

/-- Largest `datetime.fromtimestamp` argument for which the C library's
`localtime` succeeds on 64-bit Linux: the resulting year must fit the
32-bit `tm_year` field (year ≤ 2147485547, ≈ 6.78·10^16 seconds).  The
exact cutoff is libc-specific; this is the conventional 64-bit value. -/
def localtime_max_seconds : Int := 67768036191676799

/-- Smallest `localtime`-convertible timestamp (year ≥ -2147481748). -/
def localtime_min_seconds : Int := -67768040609740800

/-- Largest C `time_t` (64-bit signed). -/
def time_t_max : Int := 9223372036854775807

/-- Smallest C `time_t` (64-bit signed). -/
def time_t_min : Int := -9223372036854775808

/-- The exception, if any, that `datetime.fromtimestamp(n)` raises that
the `except (ValueError, TypeError)` of line 908 does NOT catch: an
argument that does not fit the C `time_t` raises `OverflowError`; one
that fits `time_t` but whose year overflows the C library's `tm_year`
makes `localtime` fail with `OSError`.  Arguments within the `localtime`
range either produce a datetime or raise `ValueError` (year outside
1..9999), and `ValueError` IS caught — observationally identical here
(see `timestamp_effect`), so both are `none`. -/
def fromtimestamp_exc (n : Int) : Option PyExc :=
  if n < time_t_min ∨ time_t_max < n then some .overflowError
  else if n < localtime_min_seconds ∨ localtime_max_seconds < n then some .osError
  else none

mutual

/-- `repr(x)` for an embedded Python value, as produced inside
`str(list)` / `str(dict)`.  String quoting uses single quotes; escape
sequences inside strings are not reproduced (the results feed only the
one-way content hash and log strings). -/
def Json.pyRepr : Json → String
  | .null => "None"
  | .bool true => "True"
  | .bool false => "False"
  | .num n => toString n
  | .str s => "\x27" ++ s ++ "\x27"
  | .arr .nil => "[]"
  | .arr (.cons x tl) => "[" ++ x.pyRepr ++ tl.pyReprTail ++ "]"
  | .obj .nil => "\x7b\x7d"
  | .obj (.cons k v tl) =>
      "\x7b\x27" ++ k ++ "\x27: " ++ v.pyRepr ++ tl.pyReprTail ++ "\x7d"

/-- Comma-separated continuation of a list repr. -/
def JsonList.pyReprTail : JsonList → String
  | .nil => ""
  | .cons x tl => ", " ++ x.pyRepr ++ tl.pyReprTail

/-- Comma-separated continuation of a dict repr. -/
def JsonFields.pyReprTail : JsonFields → String
  | .nil => ""
  | .cons k v tl => ", \x27" ++ k ++ "\x27: " ++ v.pyRepr ++ tl.pyReprTail

end

/-- `str(x)`: identity on strings, `repr`-style rendering otherwise
(matching Python f-string interpolation). -/
def Json.pyStr : Json → String
  | .str s => s
  | j => j.pyRepr

/- ------------------------------------------------------------------ -/
/- Canonical (sorted-key) form, the image of json.dumps(sort_keys=True)  -/
/- ------------------------------------------------------------------ -/

/-- Key order used by `json.dumps(..., sort_keys=True)` (lexicographic by
code point, here via `compare` on strings). -/
def keyLe (a b : String) : Bool := compare a b ≠ .gt

/-- Insert a field into a key-sorted field list. -/
def JsonFields.insertSortedKey (key : String) (val : Json) : JsonFields → JsonFields
  | .nil => .cons key val .nil
  | .cons k v tl =>
      if keyLe key k then .cons key val (.cons k v tl)
      else .cons k v (tl.insertSortedKey key val)

/-- Insertion sort of object fields by key. -/
def JsonFields.sortByKey : JsonFields → JsonFields
  | .nil => .nil
  | .cons k v tl => tl.sortByKey.insertSortedKey k v

mutual

/-- The value that `json.loads` returns after `json.dumps(x, sort_keys=True)`:
the same value with every object's fields sorted by key.  Python dict
equality is insensitive to field order, so a Python dict is represented
here by its canonical (key-sorted) field list. -/
def Json.canon : Json → Json
  | .null => .null
  | .bool b => .bool b
  | .num n => .num n
  | .str s => .str s
  | .arr xs => .arr xs.canonElems
  | .obj kvs => .obj kvs.canonFields.sortByKey

/-- Canonicalise every element of a list. -/
def JsonList.canonElems : JsonList → JsonList
  | .nil => .nil
  | .cons x tl => .cons x.canon tl.canonElems

/-- Canonicalise every value of a field list. -/
def JsonFields.canonFields : JsonFields → JsonFields
  | .nil => .nil
  | .cons k v tl => .cons k v.canon tl.canonFields

end

/- ------------------------------------------------------------------ -/
/- Credential Vault: src/utils/encryption.py                           -/
/- ------------------------------------------------------------------ -/

/-- Symbolic model of a stored credential blob
(`base64.urlsafe_b64encode` of a Fernet ciphertext, kept as opaque text in
the database).  Fernet is authenticated encryption (AES-CBC plus an
HMAC-SHA256 tag over the whole token), and `urlsafe_b64encode` /
`urlsafe_b64decode` are mutually inverse on its output, so the blob is
modelled by what it decrypts to: `token key plaintext` is the blob produced
by encrypting `plaintext` under `key`, and `tampered orig pos` is a blob
obtained from `orig` by altering the byte at position `pos`.  By HMAC
unforgeability an altered token is not an authentic token under any key;
the model encodes that standard idealisation by making `tampered` a
separate constructor, which no decryption accepts. -/
inductive FernetBlob where
  | token (key : String) (plaintext : Json)
  | tampered (orig : FernetBlob) (pos : Nat)
  deriving Repr, DecidableEq

/-- Alter a single byte of a stored blob at position `pos`. -/
def tamperByte (b : FernetBlob) (pos : Nat) : FernetBlob :=
  .tampered b pos

/-- Symbolic PBKDF2-HMAC-SHA256 of `_get_or_create_key`: a deterministic,
injective derivation of the Fernet key from the JWT secret with the fixed
application salt (src/utils/encryption.py lines 34-43). -/
def derive_key (jwt_secret : String) : String :=
  "pbkdf2-sha256:100000:socialify_token_salt_v1:" ++ jwt_secret

/-- The Credential Vault (`TokenEncryption`), holding the derived Fernet
key. -/
structure TokenEncryption where
  encryption_key : String
  deriving Repr, DecidableEq

/-- `TokenEncryption.__init__` via `_get_or_create_key`: raises
(`ValueError`, modelled as `none`) when `JWT_SECRET` is unset, otherwise
derives the Fernet key from it. -/
def TokenEncryption.ofSecret (jwt_secret : String) : Option TokenEncryption :=
  if jwt_secret = "" then none else some ⟨derive_key jwt_secret⟩

/-- `encrypt_token` (src/utils/encryption.py lines 45-67):
`json.dumps(token_data, sort_keys=True)`, Fernet encryption under the
vault key, then base64 wrapping.  The serialised plaintext is the
canonical (key-sorted) form of the credential structure. -/
def TokenEncryption.encrypt_token (te : TokenEncryption) (token_data : Json) : FernetBlob :=
  .token te.encryption_key token_data.canon

/-- `decrypt_token` (src/utils/encryption.py lines 69-93): base64 decode,
Fernet decrypt, JSON parse; every failure (invalid token, wrong key,
tampered bytes) is caught and surfaced as `None` — the function never
returns partially decrypted data. -/
def TokenEncryption.decrypt_token (te : TokenEncryption) (encrypted_token : FernetBlob) :
    Option Json :=
  match encrypted_token with
  | .token k plaintext => if k = te.encryption_key then some plaintext else none
  | .tampered _ _ => none

/- ------------------------------------------------------------------ -/
/- Data model: src/db/models.py                                        -/
/- ------------------------------------------------------------------ -/

/-- Row of the `users` table (src/db/models.py `User`): only the primary
key is relevant to the modelled operations — it is the target of the
`user_id` foreign keys. -/
structure UserRow where
  id : Nat
  deriving Repr, DecidableEq

/-- Row of `whatsapp_business_accounts` (src/db/models.py lines 169-212).
Columns not read or written by the modelled operations (business name,
Meta OAuth details, timestamps, refresh token) are omitted.  The
provider-assigned `waba_id` column carries a UNIQUE constraint. -/
structure WhatsAppBusinessAccount where
  id : Nat
  user_id : Nat
  waba_id : String
  access_token_encrypted : FernetBlob
  is_active : Bool := true
  webhook_configured : Bool := false
  deriving Repr, DecidableEq

/-- Row of `whatsapp_phone_numbers` (src/db/models.py lines 214-251).
`waba_id` is the foreign key to `whatsapp_business_accounts.id`; the
provider-assigned `phone_number_id` column carries a UNIQUE constraint. -/
structure WhatsAppPhoneNumber where
  id : Nat
  waba_id : Nat
  phone_number_id : String
  phone_number : String
  deriving Repr, DecidableEq

/-- Row of `whatsapp_messages_v2` (src/db/models.py lines 253-312).
`message_id` (the provider message identifier) carries a UNIQUE
constraint that is global, not scoped by `user_id`.  Fields populated
from the payload keep their Python value (`Json.null` models SQL NULL);
the float column `prediction_confidence` is represented opaquely by its
decimal literal, floating point being outside the embedding.  The
timestamp columns are omitted from the row: the created-at backdating
block of `_process_tenant_message` (lines 892-909) updates by the
record's `id` before the record is flushed, so when it executes at all
it matches no rows — but its conversion step can abort the whole message
(uncaught `OSError`/`OverflowError`), which is modelled by
`timestamp_effect` inside the processing pipeline. -/
structure WhatsAppMessageV2 where
  id : Nat
  user_id : Nat
  waba_id : Nat
  phone_number_id : Nat
  message_id : Json
  direction : String
  contact_phone : Json
  contact_name : Json := .null
  message_type : Json := .str "text"
  template_name : Json := .null
  content_hash : Json := .null
  status : String := "sent"
  error_message : Json := .null
  ai_processed : Bool := false
  predicted_priority : Json := .null
  predicted_context : Json := .null
  prediction_confidence : Json := .null
  deriving Repr, DecidableEq

/-- Row of `whatsapp_webhooks` (audit records, src/db/models.py lines
140-167). -/
structure WhatsAppWebhook where
  webhook_id : Json
  event_type : String
  message_id : Json := .null
  status : Json := .null
  webhook_data : Json
  processed : Bool
  deriving Repr, DecidableEq

/-- The database state visible to the modelled operations.
`next_message_row_id` models the autoincrement primary key assigned when
a message row is flushed. -/
structure DB where
  users : List UserRow
  wabas : List WhatsAppBusinessAccount
  phones : List WhatsAppPhoneNumber
  messages : List WhatsAppMessageV2
  webhooks : List WhatsAppWebhook
  next_message_row_id : Nat := 1
  deriving Repr, DecidableEq

/-- The store state after a successful flush of a new message row: the
row is appended and the autoincrement counter advances. -/
def DB.insertedState (db : DB) (m : WhatsAppMessageV2) : DB :=
  { db with
    messages := db.messages ++ [m],
    next_message_row_id := db.next_message_row_id + 1 }

/-- Flush of a new `whatsapp_messages_v2` row, with the table constraints
of src/db/models.py: the insert is rejected with an `IntegrityError` when
a NOT NULL constraint (`message_id`, `contact_phone`, `direction`) is
violated, when the global UNIQUE constraint on `message_id` is violated,
or when a declared foreign key (`user_id` → users, `waba_id` → business
accounts, `phone_number_id` → phone rows) references a missing row;
otherwise the row is persisted.  The check order (NOT NULL at tuple
formation, then the unique index, then the foreign keys) follows the
engines' behaviour. -/
def DB.insertMessage (db : DB) (m : WhatsAppMessageV2) : Except PyExc DB :=
  if m.message_id = .null ∨ m.contact_phone = .null ∨ m.direction = "" then
    .error (.integrityError "NOT NULL constraint failed: whatsapp_messages_v2")
  else if db.messages.any (fun r => decide (r.message_id = m.message_id)) then
    .error (.integrityError "UNIQUE constraint failed: whatsapp_messages_v2.message_id")
  else if ¬(db.users.any fun u => decide (u.id = m.user_id)) = true ∨
          ¬(db.wabas.any fun w => decide (w.id = m.waba_id)) = true ∨
          ¬(db.phones.any fun p => decide (p.id = m.phone_number_id)) = true then
    .error (.integrityError "FOREIGN KEY constraint failed: whatsapp_messages_v2")
  else
    .ok (db.insertedState m)

/-- The SQL join used by both directory queries:
`whatsapp_business_accounts JOIN whatsapp_phone_numbers` on the foreign
key `whatsapp_phone_numbers.waba_id = whatsapp_business_accounts.id`. -/
def DB.wabaPhoneJoin (db : DB) : List (WhatsAppBusinessAccount × WhatsAppPhoneNumber) :=
  db.wabas.flatMap fun w =>
    (db.phones.filter fun p => decide (p.waba_id = w.id)).map fun p => (w, p)

/- ------------------------------------------------------------------ -/
/- Service: src/services/whatsappServices/multi_tenant_whatsapp_service -/
/- ------------------------------------------------------------------ -/

namespace MultiTenantWhatsAppService

/-- `_hash_content` (lines 39-58): SHA-256 hex digest of the content.
Modelled symbolically by an injective tagging function — the claims use
only that the hash is a deterministic one-way fingerprint, never a
concrete digest value. -/
def hash_content (content : String) : String :=
  "sha256:" ++ content

/-- Routing information returned by `_find_tenant_for_phone`. -/
structure TenantInfo where
  user_id : Nat
  waba_id : Nat
  phone_id : Nat
  deriving Repr, DecidableEq

/-- `_find_tenant_for_phone` (lines 738-774): select
`(waba.user_id, waba.id, phone.id)` from the join where
`phone.phone_number_id` equals the routing key and `waba.is_active`;
`first()` of the result, `None` when no row matches.  The routing key
arrives from the payload as a Python value, compared against the string
column. -/
def find_tenant_for_phone (db : DB) (phone_number_id : Json) : Option TenantInfo :=
  match (db.wabaPhoneJoin.filter fun wp =>
      decide (Json.str wp.2.phone_number_id = phone_number_id) && wp.1.is_active).head? with
  | some (w, p) => some { user_id := w.user_id, waba_id := w.id, phone_id := p.id }
  | none => none

/-- Result row of `_get_user_waba_for_phone`. -/
structure WabaInfo where
  access_token_encrypted : FernetBlob
  waba_record_id : Nat
  phone_record_id : Nat
  deriving Repr, DecidableEq

/-- `_get_user_waba_for_phone` (lines 478-516): like the tenant lookup but
additionally scoped to the requesting user
(`WhatsAppBusinessAccount.user_id == user_id`), returning the encrypted
access token together with the row ids; `None` when no row matches. -/
def get_user_waba_for_phone (db : DB) (user_id : Nat) (phone_number_id : String) :
    Option WabaInfo :=
  match (db.wabaPhoneJoin.filter fun wp =>
      decide (wp.1.user_id = user_id) &&
      decide (wp.2.phone_number_id = phone_number_id) && wp.1.is_active).head? with
  | some (w, p) =>
      some { access_token_encrypted := w.access_token_encrypted,
             waba_record_id := w.id, phone_record_id := p.id }
  | none => none

/-- The dict returned by `_process_tenant_message`: `status` is
`"duplicate"` for the idempotent skip and `"processed"` for a stored
message. -/
inductive MessageOutcome where
  | duplicate (message_id : Json) (tenant_id : Nat)
  | processed (message_id : Json) (tenant_id : Nat) (message_type : Json) (contact_phone : Json)
  deriving Repr, DecidableEq

/-- The content branch of `_process_tenant_message` (lines 817-858):
returns `(content_hash, template_name)`.  Mirrors the Python
`if/elif/else` chain over the message type, including the inner
`"media" in`/`"location" in`/`"contacts" in` checks that leave the hash
`None` when the type-specific payload is absent, and the final default
branch hashing `str(message_data)`.  The receiver is a dict whenever this
runs (`message_data.get` has already succeeded). -/
def extract_content (m : Json) (message_type : Json) : Except PyExc (Json × Json) :=
  if message_type = .str "text" && m.hasKey "text" then
    match (m.pyItem "text").bind (fun t => t.pyItem "body") with
    | .error e => .error e
    | .ok (.str body) => .ok (.str (hash_content body), .null)
    | .ok _ => .error .attributeError
  else if message_type = .str "template" && m.hasKey "template" then
    match m.pyItem "template" with
    | .error e => .error e
    | .ok td =>
        match td.pyGetN "name" with
        | .error e => .error e
        | .ok tn => .ok (.null, tn)
  else if message_type = .str "image" || message_type = .str "document" ||
          message_type = .str "audio" || message_type = .str "video" ||
          message_type = .str "sticker" then
    if m.hasKey "media" then
      match (m.pyItem "media").bind (fun md => md.pyItem "id") with
      | .error e => .error e
      | .ok (.str media_id) => .ok (.str (hash_content media_id), .null)
      | .ok _ => .error .attributeError
    else .ok (.null, .null)
  else if message_type = .str "location" then
    if m.hasKey "location" then
      match m.pyItem "location" with
      | .error e => .error e
      | .ok location =>
          match location.pyGetN "latitude", location.pyGetN "longitude" with
          | .error e, _ => .error e
          | _, .error e => .error e
          | .ok lat, .ok lng =>
              .ok (.str (hash_content (lat.pyStr ++ "," ++ lng.pyStr)), .null)
    else .ok (.null, .null)
  else if message_type = .str "contacts" then
    if m.hasKey "contacts" then
      match m.pyItem "contacts" with
      | .error e => .error e
      | .ok contacts =>
          match contacts.pyLen with
          | .error e => .error e
          | .ok _ => .ok (.str (hash_content contacts.pyStr), .null)
    else .ok (.null, .null)
  else
    .ok (.str (hash_content m.pyStr), .null)

/-- The created-at backdating block of `_process_tenant_message`
(lines 892-909), executed after the duplicate check and the record
construction, before the flush.  `if timestamp:` skips falsy values;
`int(timestamp)` failures (`ValueError`/`TypeError`) are caught by the
block's `except` and logged; `datetime.fromtimestamp` arguments outside
the platform range raise `OSError`/`OverflowError`, which that `except`
does NOT catch, aborting the message.  When a datetime is produced (or
`fromtimestamp` raises the caught `ValueError` for years outside
1..9999), the block has no further effect: the UPDATE it executes
filters on the record's `id`, which is still unassigned (NULL) before
the flush, so it matches no rows and does not raise. -/
def timestamp_effect (timestamp : Json) : Except PyExc Unit :=
  if !timestamp.truthy then .ok ()
  else
    match timestamp.pyToInt with
    | .error _ => .ok ()
    | .ok n =>
        match fromtimestamp_exc n with
        | some e => .error e
        | none => .ok ()

/-- The inbound message row constructed at lines 877-890 of
`_process_tenant_message` (`direction="inbound"`, `status="received"`),
with the autoincrement id assigned at flush. -/
def new_inbound_row (row_id : Nat) (t : TenantInfo)
    (mid contact_phone contact_name mtype template_name content_hash : Json) :
    WhatsAppMessageV2 :=
  { id := row_id,
    user_id := t.user_id,
    waba_id := t.waba_id,
    phone_number_id := t.phone_id,
    message_id := mid,
    direction := "inbound",
    contact_phone := contact_phone,
    contact_name := contact_name,
    message_type := mtype,
    template_name := template_name,
    content_hash := content_hash,
    status := "received" }

/-- Body of the `try` block of `_process_tenant_message` (lines 800-927):
extract the message attributes, run the idempotency check scoped to
`(message_id, user_id)`, and either return the duplicate outcome without
writing, or run the timestamp block (`timestamp_effect`, whose
out-of-range conversions abort the message), flush a new inbound row
(`direction="inbound"`, `status="received"`) and dispatch the AI
enrichment task.  The returned triple carries the outcome, the database
state, and whether enrichment was dispatched (`asyncio.create_task`,
line 915). -/
def process_tenant_message_core (message_data : Json) (tenant_info : TenantInfo) (db : DB) :
    Except PyExc (MessageOutcome × DB × Bool) :=
  match message_data.pyGetN "id" with
  | .error e => .error e
  | .ok message_id =>
    if !message_id.truthy then .error (.whatsAppError "Message missing ID") else
    match message_data.pyGet "type" (.str "text") with
    | .error e => .error e
    | .ok message_type =>
      match message_data.pyGetN "timestamp" with
      | .error e => .error e
      | .ok timestamp =>
        match message_data.pyGetN "from" with
        | .error e => .error e
        | .ok contact_phone =>
          match (message_data.pyGet "profile" (.obj .nil)).bind
              (fun profile => profile.pyGet "name" (.str "")) with
          | .error e => .error e
          | .ok contact_name =>
            match extract_content message_data message_type with
            | .error e => .error e
            | .ok (content_hash, template_name) =>
              if (db.messages.find? fun r =>
                  decide (r.message_id = message_id) &&
                  decide (r.user_id = tenant_info.user_id)).isSome then
                .ok (.duplicate message_id tenant_info.user_id, db, false)
              else
                match timestamp_effect timestamp with
                | .error e => .error e
                | .ok _ =>
                  match db.insertMessage
                      (new_inbound_row db.next_message_row_id tenant_info message_id
                        contact_phone contact_name message_type template_name content_hash) with
                  | .error e => .error e
                  | .ok db' =>
                      .ok (.processed message_id tenant_info.user_id message_type contact_phone,
                           db', true)

/-- Decidable equality of `Except` results (used by the result records
below). -/
instance instDecEqExcept {ε α : Type} [DecidableEq ε] [DecidableEq α] :
    DecidableEq (Except ε α) := fun a b =>
  match a, b with
  | .ok x, .ok y => decidable_of_iff (x = y) (by simp)
  | .ok _, .error _ => isFalse (fun h => Except.noConfusion h)
  | .error _, .ok _ => isFalse (fun h => Except.noConfusion h)
  | .error x, .error y => decidable_of_iff (x = y) (by simp)

/-- Result of `_process_tenant_message` as seen by the caller. -/
structure TenantProcResult where
  db : DB
  result : Except PyExc MessageOutcome
  ai_dispatched : Bool
  deriving Repr, DecidableEq

/-- `_process_tenant_message` (lines 776-933): the `except` clause wraps
every failure of the body into
`WhatsAppError("Message processing failed: ...")`; a failed flush leaves
no persisted row. -/
def process_tenant_message (message_data : Json) (tenant_info : TenantInfo) (db : DB) :
    TenantProcResult :=
  match process_tenant_message_core message_data tenant_info db with
  | .ok (outcome, db', dispatched) => ⟨db', .ok outcome, dispatched⟩
  | .error e => ⟨db, .error (.whatsAppError ("Message processing failed: " ++ e.msg)), false⟩

/-- The dict returned by `route_webhook_message`.  Keys absent from the
returned Python dict are `none`; the wall-clock metrics
(`processing_time_seconds`, `messages_per_second`, `timestamp`) are
outside the embedding. -/
structure RouteResult where
  success : Bool
  processed_count : Nat
  error_count : Option Nat := none
  errors : Option (List String) := none
  error : Option String := none
  message : Option String := none
  deriving Repr, DecidableEq

/-- Mutable state of the entry/change/message walking loops of
`route_webhook_message`: the database session, the `processed_messages`
and `errors` accumulators, and the number of enrichment dispatches. -/
structure RouteState where
  db : DB
  processed : List MessageOutcome
  errors : List String
  ai_dispatches : Nat
  deriving Repr, DecidableEq

/-- The per-message loop (lines 675-687): each message is processed in its
own `try`; a failure is recorded as
`"Entry {e}, Message {m}: {error}"` and the loop continues. -/
def route_messages (tenant_info : TenantInfo) (entry_idx : Nat) (msgs : List Json)
    (st : RouteState) : RouteState :=
  (msgs.enum).foldl
    (fun s (im : Nat × Json) =>
      let r := process_tenant_message im.2 tenant_info s.db
      match r.result with
      | .ok outcome =>
          { s with db := r.db, processed := s.processed ++ [outcome],
                   ai_dispatches := s.ai_dispatches + (if r.ai_dispatched then 1 else 0) }
      | .error e =>
          { s with db := r.db,
                   errors := s.errors ++
                     ["Entry " ++ toString entry_idx ++ ", Message " ++ toString im.1 ++
                      ": " ++ e.msg] })
    st

/-- Body of the per-change `try` block (lines 638-688): skip non-message
changes and falsy values, extract the routing key from the value
metadata (a missing key is a per-value error recorded against the entry
index), resolve the tenant (no tenant is likewise a per-value error), and
walk the value's messages.  Every failure surfaces before the message
loop starts, so an exception leaves the accumulators untouched. -/
def route_change_core (entry_idx : Nat) (change : Json) (st : RouteState) :
    Except PyExc RouteState := do
  let field ← change.pyGetN "field"
  if field ≠ .str "messages" then return st else
  let value ← change.pyGet "value" (.obj .nil)
  if !value.truthy then return st else
  let metadata ← value.pyGet "metadata" (.obj .nil)
  let phone_number_id ← metadata.pyGetN "phone_number_id"
  if !phone_number_id.truthy then
    return { st with errors := st.errors ++
      ["Entry " ++ toString entry_idx ++ ": Missing phone_number_id"] }
  else
  match find_tenant_for_phone st.db phone_number_id with
  | none =>
      return { st with errors := st.errors ++
        ["Entry " ++ toString entry_idx ++ ": No tenant for phone " ++
         phone_number_id.pyStr] }
  | some tenant_info =>
      let messages ← value.pyGet "messages" (.arr .nil)
      if !messages.truthy then return st else
      let msgList ← messages.pyIter
      return route_messages tenant_info entry_idx msgList st

/-- Per-change processing with its `except` clause (lines 689-693):
a change-level failure is recorded as `"Entry {e}, Change {c}: {error}"`
and the walk continues. -/
def route_change (entry_idx change_idx : Nat) (change : Json) (st : RouteState) : RouteState :=
  match route_change_core entry_idx change st with
  | .ok st' => st'
  | .error e =>
      { st with errors := st.errors ++
        ["Entry " ++ toString entry_idx ++ ", Change " ++ toString change_idx ++
         ": " ++ e.msg] }

/-- Body of the per-entry `try` block (lines 628-693): entries without
changes are skipped; the changes are walked with per-change error
recovery.  Failures (non-dict entry, non-iterable changes) surface before
the change loop starts. -/
def route_entry_core (entry_idx : Nat) (entry : Json) (st : RouteState) :
    Except PyExc RouteState := do
  let changes ← entry.pyGet "changes" (.arr .nil)
  if !changes.truthy then return st else
  let changeList ← changes.pyIter
  return (changeList.enum).foldl
    (fun s (ic : Nat × Json) => route_change entry_idx ic.1 ic.2 s) st

/-- Per-entry processing with its `except` clause (lines 695-699). -/
def route_entry (entry_idx : Nat) (entry : Json) (st : RouteState) : RouteState :=
  match route_entry_core entry_idx entry st with
  | .ok st' => st'
  | .error e =>
      { st with errors := st.errors ++
        ["Entry " ++ toString entry_idx ++ ": " ++ e.msg] }

/-- Placeholder for `f"webhook_{datetime.utcnow().isoformat()}"`, the
audit record id used when the payload carries no `id` (wall-clock text,
opaque to the claims). -/
def default_webhook_id : String := "webhook_utcnow"

/-- Body of the `try` block of `_store_webhook_record` (lines 1108-1131):
the analytics counters walked over the payload can raise on unexpected
shapes, in which case the audit record is skipped; otherwise one
`whatsapp_webhooks` row is added. -/
def store_webhook_record_core (webhook_data : Json) : Except PyExc WhatsAppWebhook := do
  let entries := webhook_data.objGetD "entry" (.arr .nil)
  let _ ← entries.pyLen
  let entryList ← entries.pyIter
  let _ ← entryList.foldlM
    (fun (acc : Nat) entry => do
      let changes ← entry.pyGet "changes" (.arr .nil)
      let changeList ← changes.pyIter
      changeList.foldlM
        (fun (acc2 : Nat) change => do
          let field ← change.pyGetN "field"
          if field = .str "messages" then
            let value ← change.pyGet "value" (.obj .nil)
            let msgs ← value.pyGet "messages" (.arr .nil)
            let n ← msgs.pyLen
            return acc2 + n
          else
            return acc2)
        acc)
    0
  return { webhook_id := webhook_data.objGetD "id" (.str default_webhook_id),
           event_type := "messages",
           webhook_data := webhook_data,
           processed := true }

/-- `_store_webhook_record` (lines 1094-1134): failures are logged and
swallowed — the audit write is not critical to message processing. -/
def store_webhook_record (webhook_data : Json) (db : DB) : DB :=
  match store_webhook_record_core webhook_data with
  | .ok rec => { db with webhooks := db.webhooks ++ [rec] }
  | .error _ => db

/-- Result of `route_webhook_message` as seen by the caller. -/
structure RouteOutput where
  result : RouteResult
  db : DB
  ai_dispatches : Nat
  deriving Repr, DecidableEq

/-- `route_webhook_message` (lines 570-736), the Webhook Ingestion
Pipeline.  Validation: a non-dict payload raises and is answered by the
outer `except` with `success=False` and `error_count=1`; a payload
without an `entry` key returns the validation failure dict of lines
608-613; a falsy `entry` collection returns `success=True` with nothing
processed (lines 616-622).  Otherwise entries are walked with per-item
error recovery, the aggregate result is built (errors are truncated to
10), and the audit record is stored. -/
def route_webhook_message (webhook_data : Json) (db : DB) : RouteOutput :=
  if !webhook_data.isObj then
    { result := { success := false, processed_count := 0, error_count := some 1,
                  error := some "Invalid webhook payload: not a dictionary" },
      db := db, ai_dispatches := 0 }
  else if !webhook_data.hasKey "entry" then
    { result := { success := false, processed_count := 0,
                  errors := some ["Invalid webhook structure"],
                  error := some "Missing entry field" },
      db := db, ai_dispatches := 0 }
  else
    let entries := webhook_data.objGetD "entry" (.arr .nil)
    if !entries.truthy then
      { result := { success := true, processed_count := 0,
                    message := some "No entries to process" },
        db := db, ai_dispatches := 0 }
    else
      match entries.pyIter with
      | .error e =>
          { result := { success := false, processed_count := 0, error_count := some 1,
                        error := some e.msg },
            db := db, ai_dispatches := 0 }
      | .ok entryList =>
          let st := (entryList.enum).foldl
            (fun s (ie : Nat × Json) => route_entry ie.1 ie.2 s)
            { db := db, processed := [], errors := [], ai_dispatches := 0 }
          { result := { success := st.errors.isEmpty,
                        processed_count := st.processed.length,
                        error_count := some st.errors.length,
                        errors := if st.errors.isEmpty then none
                                  else some (st.errors.take 10) },
            db := store_webhook_record webhook_data st.db,
            ai_dispatches := st.ai_dispatches }

/-- `_send_message_via_meta_api` (lines 518-568): the HTTP exchange with
the provider is outside the embedding, so the provider's answer is a
parameter — `.ok body` for a 200 response, `.error text` otherwise, in
which case the function raises
`WhatsAppError("Meta API send failed: Meta API error: ...")` (the inner
raise of line 564 rewrapped by the method's own `except`). -/
def send_message_via_meta_api (_phone_number_id _to_number _message : String)
    (_access_token : Json) (meta_response : Except String Json) : Except PyExc Json :=
  match meta_response with
  | .ok body => .ok body
  | .error text =>
      .error (.whatsAppError ("Meta API send failed: Meta API error: " ++ text))

/-- Success dict of `send_message`
(`{"success": True, "message_id": ..., "status": "sent"}`). -/
structure SendSuccess where
  message_id : Json
  deriving Repr, DecidableEq

/-- Result of `send_message` as seen by the caller: the database state,
the outcome, and whether the provider send API was invoked. -/
structure SendOutput where
  db : DB
  result : Except PyExc SendSuccess
  provider_called : Bool
  deriving Repr, DecidableEq

/-- `send_message` (lines 412-476), the Outbound Message Gateway: resolve
the phone for the requesting user (failure raises
`"Phone number not found or not authorized"` before any provider
contact); decrypt the stored credential (a falsy result raises
`"Failed to decrypt access token"`, still before any provider contact);
call the provider; persist the outbound row keyed by the
provider-returned message id and commit.  The `except` clause rolls the
session back and rewraps every failure as
`WhatsAppError("Failed to send message: ...")`. -/
def send_message (te : TokenEncryption) (user_id : Nat) (phone_number_id : String)
    (to_number : String) (message : String) (meta_response : Except String Json)
    (db : DB) : SendOutput :=
  let wrap : PyExc → Except PyExc SendSuccess := fun e =>
    .error (.whatsAppError ("Failed to send message: " ++ e.msg))
  match get_user_waba_for_phone db user_id phone_number_id with
  | none =>
      { db := db, result := wrap (.whatsAppError "Phone number not found or not authorized"),
        provider_called := false }
  | some waba_info =>
    let token_data := (te.decrypt_token waba_info.access_token_encrypted).getD .null
    if !token_data.truthy then
      { db := db, result := wrap (.whatsAppError "Failed to decrypt access token"),
        provider_called := false }
    else
      match token_data.pyItem "access_token" with
      | .error e => { db := db, result := wrap e, provider_called := false }
      | .ok access_token =>
        match send_message_via_meta_api phone_number_id to_number message
            access_token meta_response with
        | .error e => { db := db, result := wrap e, provider_called := true }
        | .ok body =>
          match (body.pyItem "messages").bind
              (fun ms => (ms.pyIndex 0).bind (fun m0 => m0.pyItem "id")) with
          | .error e => { db := db, result := wrap e, provider_called := true }
          | .ok provider_message_id =>
            match db.insertMessage
                { id := db.next_message_row_id,
                  user_id := user_id,
                  waba_id := waba_info.waba_record_id,
                  phone_number_id := waba_info.phone_record_id,
                  message_id := provider_message_id,
                  direction := "outbound",
                  contact_phone := .str to_number,
                  message_type := .str "text",
                  status := "sent" } with
            | .error e => { db := db, result := wrap e, provider_called := true }
            | .ok db' =>
                { db := db', result := .ok { message_id := provider_message_id },
                  provider_called := true }

/-- The fixed analysis placeholder of `_process_message_with_ai`
(lines 1165-1171); the float confidence 0.85 is kept as its literal. -/
def updateMessageAi (db : DB) (record_id : Nat) : DB :=
  { db with messages := db.messages.map fun r =>
      if r.id = record_id then
        { r with ai_processed := true,
                 predicted_priority := .str "medium",
                 predicted_context := .str "general_inquiry",
                 prediction_confidence := .str "0.85" }
      else r }

/-- `_process_message_with_ai` (lines 1136-1191): extract the optional
text preview, then update the record's enrichment fields.  A failure of
the enrichment step — the classification placeholder or the database
update, injected here as `ai_step_fails`, or a malformed payload during
the preview extraction — is logged and swallowed; no update is applied
and nothing is raised.  Returns the session state and whether a failure
was logged. -/
def process_message_with_ai (record_id : Nat) (message_data : Json)
    (ai_step_fails : Bool) (db : DB) : DB × Bool :=
  if ai_step_fails then (db, true)
  else
    let preview : Except PyExc Unit := do
      let has_text ← message_data.pyContains "text"
      if has_text then
        let _ ← (message_data.pyItem "text").bind (fun t => t.pyItem "body")
        return ()
      else return ()
    match preview with
    | .error _ => (db, true)
    | .ok _ => (updateMessageAi db record_id, false)

/-- Result of one enrichment dispatch. -/
structure EnrichOutput where
  db : DB
  attempts : Nat
  error_logged : Bool
  deriving Repr, DecidableEq

/-- `_process_message_with_ai_async` (lines 1193-1216), the Async
Enrichment Dispatcher task body: it opens its own session, runs the
enrichment once (`break` after the first iteration), commits on success
and rolls back on failure.  The inner handler never re-raises, so the
committed state equals the inner result. -/
def process_message_with_ai_async (record_id : Nat) (message_data : Json)
    (ai_step_fails : Bool) (db : DB) : EnrichOutput :=
  let r := process_message_with_ai record_id message_data ai_step_fails db
  { db := r.1, attempts := 1, error_logged := r.2 }

end MultiTenantWhatsAppService

/- ------------------------------------------------------------------ -/
/- Webhook verification endpoint: src/api/v2/whatsapp.py               -/
/- ------------------------------------------------------------------ -/

/-- The configuration values read by the modelled endpoints
(src/config/settings.py: both default to the empty string when the
environment does not set them). -/
structure Settings where
  JWT_SECRET : String := ""
  WHATSAPP_WEBHOOK_VERIFY_TOKEN : String := ""
  deriving Repr, DecidableEq

/-- HTTP response of the verification endpoint. -/
inductive VerifyResponse where
  | plainText (body : Option String)
  | httpError (status : Nat) (detail : String)
  deriving Repr, DecidableEq

/-- `verify_webhook` (src/api/v2/whatsapp.py lines 432-455): echo the
`hub.challenge` query parameter iff `hub.mode == "subscribe"` and
`hub.verify_token` equals the configured token; otherwise raise 403 —
which the enclosing `except Exception` converts into a 500 whose detail
is `str(HTTPException(403, "Verification failed"))`.  Query parameters
are `Option String` (absent is Python `None`, and `None == <str>` is
false). -/
def verify_webhook (settings : Settings) (mode verify_token challenge : Option String) :
    VerifyResponse :=
  if mode = some "subscribe" ∧ verify_token = some settings.WHATSAPP_WEBHOOK_VERIFY_TOKEN then
    .plainText challenge
  else
    .httpError 500 "403: Verification failed"

/- ------------------------------------------------------------------ -/
/- Concrete fixtures used by the witness theorems                      -/
/- ------------------------------------------------------------------ -/

open MultiTenantWhatsAppService in
/-- A vault constructed from a test secret. -/
def te0 : TokenEncryption := ⟨derive_key "test-jwt-secret"⟩

/-- A credential structure in canonical (key-sorted) form. -/
def cred0 : Json := jobj [("access_token", .str "EAAG.tok"), ("refresh_token", .str "1.ref")]

/-- The stored blob for `cred0`. -/
def blob0 : FernetBlob := te0.encrypt_token cred0

/-- Tenant 7's user row. -/
def user7 : UserRow := { id := 7 }

/-- Tenant 99's user row. -/
def user99 : UserRow := { id := 99 }

/-- An active business account of tenant 7. -/
def waba0 : WhatsAppBusinessAccount :=
  { id := 1, user_id := 7, waba_id := "waba_100", access_token_encrypted := blob0 }

/-- The routable phone of `waba0`. -/
def phone0 : WhatsAppPhoneNumber :=
  { id := 1, waba_id := 1, phone_number_id := "pn_100", phone_number := "+212600000100" }

/-- A store with one connected tenant and no messages. -/
def db0 : DB :=
  { users := [user7], wabas := [waba0], phones := [phone0], messages := [], webhooks := [] }

/-- A valid inbound text message payload. -/
def msg0 : Json :=
  jobj [("id", .str "wamid.001"), ("type", .str "text"), ("from", .str "+33600000001"),
        ("profile", jobj [("name", .str "Alice")]),
        ("text", jobj [("body", .str "hello")])]

/-- The routing information of `waba0`/`phone0`. -/
def tenant0 : MultiTenantWhatsAppService.TenantInfo := { user_id := 7, waba_id := 1, phone_id := 1 }

/-- Tenant 99's business account. -/
def waba9 : WhatsAppBusinessAccount :=
  { id := 4, user_id := 99, waba_id := "waba_400", access_token_encrypted := blob0 }

/-- The routable phone of `waba9`. -/
def phone9 : WhatsAppPhoneNumber :=
  { id := 4, waba_id := 4, phone_number_id := "pn_400", phone_number := "+212600000400" }

/-- A message row persisted under a different tenant (user 99) with the
same provider message id as `msg0`. -/
def old_row9 : WhatsAppMessageV2 :=
  { id := 1, user_id := 99, waba_id := 4, phone_number_id := 4,
    message_id := .str "wamid.001", direction := "inbound",
    contact_phone := .str "+10000000", status := "received" }

/-- A store with two connected tenants, already holding `old_row9`. -/
def db9 : DB :=
  { users := [user7, user99], wabas := [waba0, waba9], phones := [phone0, phone9],
    messages := [old_row9], webhooks := [], next_message_row_id := 2 }

/-- `waba0` with its stored credential blob altered in one byte. -/
def waba4 : WhatsAppBusinessAccount :=
  { id := 1, user_id := 7, waba_id := "waba_100",
    access_token_encrypted := tamperByte blob0 3 }

/-- A store whose only credential blob is corrupted. -/
def db4 : DB :=
  { users := [user7], wabas := [waba4], phones := [phone0], messages := [], webhooks := [] }

/-- A provider 200 response carrying an outbound message id. -/
def meta_ok0 : Except String Json :=
  .ok (jobj [("messages", jarr [jobj [("id", .str "wamid.out.1")]])])

open MultiTenantWhatsAppService in
/-- The message row flushed when `msg0` is ingested into `db0` for
`tenant0`. -/
def row8 : WhatsAppMessageV2 :=
  { id := 1, user_id := 7, waba_id := 1, phone_number_id := 1,
    message_id := .str "wamid.001", direction := "inbound",
    contact_phone := .str "+33600000001", contact_name := .str "Alice",
    message_type := .str "text", template_name := .null,
    content_hash := .str (hash_content "hello"), status := "received" }

/-- The store after that ingestion commit. -/
def db8 : DB :=
  { users := [user7], wabas := [waba0], phones := [phone0], messages := [row8],
    webhooks := [], next_message_row_id := 2 }

/-- One webhook value: a metadata block (with or without the routing key)
and a single inbound text message. -/
def value5 (pid : Option String) (mid : String) : Json :=
  jobj [("metadata", jobj (match pid with
          | some p => [("phone_number_id", .str p)]
          | none => [])),
        ("messages", jarr [jobj [("id", .str mid), ("type", .str "text"),
                                 ("from", .str "+33600000002"),
                                 ("text", jobj [("body", .str "hello")])]])]

/-- One webhook entry with a single messages-change carrying `v`. -/
def entry5 (v : Json) : Json :=
  jobj [("changes", jarr [jobj [("field", .str "messages"), ("value", v)]])]

/-- A batch of 5 messages where exactly the value carrying message 3
lacks `metadata.phone_number_id`. -/
def payload5 : Json :=
  jobj [("entry", jarr [entry5 (value5 (some "pn_100") "wamid.b1"),
                        entry5 (value5 (some "pn_100") "wamid.b2"),
                        entry5 (value5 none "wamid.b3"),
                        entry5 (value5 (some "pn_100") "wamid.b4"),
                        entry5 (value5 (some "pn_100") "wamid.b5")])]

/- ------------------------------------------------------------------ -/
/- Helper lemmas on the directory queries                              -/
/- ------------------------------------------------------------------ -/

theorem head?_eq_of_mem_of_all {α : Type} {l : List α} {a : α}
    (ha : a ∈ l) (hall : ∀ b ∈ l, b = a) : l.head? = some a := by
  cases l with
  | nil => cases ha
  | cons x xs =>
      simp only [List.head?, Option.some.injEq]
      exact hall x (List.mem_cons_self x xs)

theorem mem_wabaPhoneJoin {db : DB} {wp : WhatsAppBusinessAccount × WhatsAppPhoneNumber} :
    wp ∈ db.wabaPhoneJoin ↔ wp.1 ∈ db.wabas ∧ wp.2 ∈ db.phones ∧ wp.2.waba_id = wp.1.id := by
  obtain ⟨w, p⟩ := wp
  simp only [DB.wabaPhoneJoin, List.mem_flatMap, List.mem_map, List.mem_filter,
    decide_eq_true_eq, Prod.mk.injEq]
  constructor
  · rintro ⟨w', hw', p', ⟨hp', hfk⟩, rfl, rfl⟩
    exact ⟨hw', hp', hfk⟩
  · rintro ⟨hw, hp, hfk⟩
    exact ⟨w, hw, p, ⟨hp, hfk⟩, rfl, rfl⟩

namespace MultiTenantWhatsAppService

theorem find_tenant_for_phone_eq_none (db : DB) (pid : Json)
    (h : ∀ w ∈ db.wabas, ∀ p ∈ db.phones, p.waba_id = w.id →
          Json.str p.phone_number_id = pid → w.is_active = false) :
    find_tenant_for_phone db pid = none := by
  unfold find_tenant_for_phone
  have hnil : db.wabaPhoneJoin.filter
      (fun wp => decide (Json.str wp.2.phone_number_id = pid) && wp.1.is_active) = [] := by
    refine List.filter_eq_nil_iff.2 ?_
    rintro ⟨w, p⟩ hmem hcond
    obtain ⟨hw, hp, hfk⟩ := mem_wabaPhoneJoin.1 hmem
    simp only [Bool.and_eq_true, decide_eq_true_eq] at hcond
    obtain ⟨hpid, hact⟩ := hcond
    simp [h w hw p hp hfk hpid] at hact
  rw [hnil]
  rfl

theorem find_tenant_for_phone_eq_some (db : DB) (pid : String)
    (w : WhatsAppBusinessAccount) (p : WhatsAppPhoneNumber)
    (hwU : (db.wabas.map WhatsAppBusinessAccount.id).Nodup)
    (hpU : (db.phones.map WhatsAppPhoneNumber.phone_number_id).Nodup)
    (hw : w ∈ db.wabas) (hp : p ∈ db.phones)
    (hpid : p.phone_number_id = pid) (hfk : p.waba_id = w.id) (hact : w.is_active = true) :
    find_tenant_for_phone db (.str pid) =
      some { user_id := w.user_id, waba_id := w.id, phone_id := p.id } := by
  unfold find_tenant_for_phone
  have hmem : (w, p) ∈ db.wabaPhoneJoin.filter
      (fun wp => decide (Json.str wp.2.phone_number_id = .str pid) && wp.1.is_active) := by
    rw [List.mem_filter]
    refine ⟨mem_wabaPhoneJoin.2 ⟨hw, hp, hfk⟩, ?_⟩
    simp [hpid, hact]
  have hall : ∀ b ∈ db.wabaPhoneJoin.filter
      (fun wp => decide (Json.str wp.2.phone_number_id = .str pid) && wp.1.is_active),
      b = (w, p) := by
    rintro ⟨w', p'⟩ hb
    rw [List.mem_filter] at hb
    obtain ⟨hj, hcond⟩ := hb
    obtain ⟨hw', hp', hfk'⟩ := mem_wabaPhoneJoin.1 hj
    simp only [Bool.and_eq_true, decide_eq_true_eq, Json.str.injEq] at hcond
    obtain ⟨hpid', hact'⟩ := hcond
    have hpp : p' = p :=
      List.inj_on_of_nodup_map hpU hp' hp (by rw [hpid', hpid])
    subst hpp
    have hww : w' = w :=
      List.inj_on_of_nodup_map hwU hw' hw (by rw [← hfk', hfk])
    subst hww
    rfl
  rw [head?_eq_of_mem_of_all hmem hall]

theorem get_user_waba_for_phone_eq_none (db : DB) (user_id : Nat) (pid : String)
    (h : ∀ w ∈ db.wabas, ∀ p ∈ db.phones, p.waba_id = w.id → p.phone_number_id = pid →
          ¬(w.user_id = user_id ∧ w.is_active = true)) :
    get_user_waba_for_phone db user_id pid = none := by
  unfold get_user_waba_for_phone
  have hnil : db.wabaPhoneJoin.filter
      (fun wp => decide (wp.1.user_id = user_id) &&
        decide (wp.2.phone_number_id = pid) && wp.1.is_active) = [] := by
    refine List.filter_eq_nil_iff.2 ?_
    rintro ⟨w, p⟩ hmem hcond
    obtain ⟨hw, hp, hfk⟩ := mem_wabaPhoneJoin.1 hmem
    simp only [Bool.and_eq_true, decide_eq_true_eq] at hcond
    obtain ⟨⟨huser, hpid⟩, hact⟩ := hcond
    exact h w hw p hp hfk hpid ⟨huser, hact⟩
  rw [hnil]
  rfl

theorem get_user_waba_for_phone_eq_some (db : DB) (user_id : Nat) (pid : String)
    (w : WhatsAppBusinessAccount) (p : WhatsAppPhoneNumber)
    (hwU : (db.wabas.map WhatsAppBusinessAccount.id).Nodup)
    (hpU : (db.phones.map WhatsAppPhoneNumber.phone_number_id).Nodup)
    (hw : w ∈ db.wabas) (hp : p ∈ db.phones)
    (hpid : p.phone_number_id = pid) (hfk : p.waba_id = w.id)
    (huser : w.user_id = user_id) (hact : w.is_active = true) :
    get_user_waba_for_phone db user_id pid =
      some { access_token_encrypted := w.access_token_encrypted,
             waba_record_id := w.id, phone_record_id := p.id } := by
  unfold get_user_waba_for_phone
  have hmem : (w, p) ∈ db.wabaPhoneJoin.filter
      (fun wp => decide (wp.1.user_id = user_id) &&
        decide (wp.2.phone_number_id = pid) && wp.1.is_active) := by
    rw [List.mem_filter]
    refine ⟨mem_wabaPhoneJoin.2 ⟨hw, hp, hfk⟩, ?_⟩
    simp [hpid, hact, huser]
  have hall : ∀ b ∈ db.wabaPhoneJoin.filter
      (fun wp => decide (wp.1.user_id = user_id) &&
        decide (wp.2.phone_number_id = pid) && wp.1.is_active),
      b = (w, p) := by
    rintro ⟨w', p'⟩ hb
    rw [List.mem_filter] at hb
    obtain ⟨hj, hcond⟩ := hb
    obtain ⟨hw', hp', hfk'⟩ := mem_wabaPhoneJoin.1 hj
    simp only [Bool.and_eq_true, decide_eq_true_eq] at hcond
    obtain ⟨⟨huser', hpid'⟩, hact'⟩ := hcond
    have hpp : p' = p :=
      List.inj_on_of_nodup_map hpU hp' hp (by rw [hpid', hpid])
    subst hpp
    have hww : w' = w :=
      List.inj_on_of_nodup_map hwU hw' hw (by rw [← hfk', hfk])
    subst hww
    rfl
  rw [head?_eq_of_mem_of_all hmem hall]

end MultiTenantWhatsAppService

/- ------------------------------------------------------------------ -/
/- Helper lemmas on message processing                                 -/
/- ------------------------------------------------------------------ -/

namespace MultiTenantWhatsAppService

/-- A fresh valid message (no row for its provider id, convertible
timestamp, tenant route referencing existing rows) is flushed and the
enrichment task is dispatched. -/
theorem process_core_fresh (m : Json) (t : TenantInfo) (db : DB)
    (mid mtype ts contact_phone contact_name content_hash template_name : Json)
    (hid : m.pyGetN "id" = .ok mid)
    (htruthy : mid.truthy = true)
    (htype : m.pyGet "type" (.str "text") = .ok mtype)
    (hts : m.pyGetN "timestamp" = .ok ts)
    (hfrom : m.pyGetN "from" = .ok contact_phone)
    (hcp : contact_phone ≠ .null)
    (hname : (m.pyGet "profile" (.obj .nil)).bind
        (fun profile => profile.pyGet "name" (.str "")) = .ok contact_name)
    (hcontent : extract_content m mtype = .ok (content_hash, template_name))
    (htse : timestamp_effect ts = .ok ())
    (hfresh : ∀ r ∈ db.messages, r.message_id ≠ mid)
    (hfk_user : (db.users.any fun u => decide (u.id = t.user_id)) = true)
    (hfk_waba : (db.wabas.any fun w => decide (w.id = t.waba_id)) = true)
    (hfk_phone : (db.phones.any fun p => decide (p.id = t.phone_id)) = true) :
    process_tenant_message_core m t db =
      .ok (.processed mid t.user_id mtype contact_phone,
           db.insertedState (new_inbound_row db.next_message_row_id t mid
             contact_phone contact_name mtype template_name content_hash),
           true) := by
  have hmidnull : mid ≠ Json.null := by
    intro h
    subst h
    simp [Json.truthy] at htruthy
  have hfind : db.messages.find? (fun r =>
      decide (r.message_id = mid) && decide (r.user_id = t.user_id)) = none := by
    refine List.find?_eq_none.2 ?_
    intro r hr
    simp [hfresh r hr]
  have hany0 : (db.messages.any fun r => decide (r.message_id = mid)) = false := by
    simp only [List.any_eq_false, decide_eq_true_eq]
    exact hfresh
  unfold process_tenant_message_core
  rw [hid, htype, hts, hfrom, hname]
  simp only [htruthy, Bool.not_true, if_false]
  rw [hcontent]
  simp only [hfind, Option.isSome_none]
  rw [htse]
  unfold DB.insertMessage
  simp [new_inbound_row, hmidnull, hcp, hany0, hfk_user, hfk_waba, hfk_phone]

/-- A message whose `(message_id, user_id)` pair is already stored is
answered with the duplicate outcome: no write, no dispatch. -/
theorem process_core_duplicate (m : Json) (t : TenantInfo) (db : DB)
    (mid mtype ts contact_phone contact_name content_hash template_name : Json)
    (hid : m.pyGetN "id" = .ok mid)
    (htruthy : mid.truthy = true)
    (htype : m.pyGet "type" (.str "text") = .ok mtype)
    (hts : m.pyGetN "timestamp" = .ok ts)
    (hfrom : m.pyGetN "from" = .ok contact_phone)
    (hname : (m.pyGet "profile" (.obj .nil)).bind
        (fun profile => profile.pyGet "name" (.str "")) = .ok contact_name)
    (hcontent : extract_content m mtype = .ok (content_hash, template_name))
    (hdup : (db.messages.find? (fun r =>
        decide (r.message_id = mid) && decide (r.user_id = t.user_id))).isSome = true) :
    process_tenant_message_core m t db = .ok (.duplicate mid t.user_id, db, false) := by
  unfold process_tenant_message_core
  rw [hid, htype, hts, hfrom, hname]
  simp only [htruthy, Bool.not_true, if_false]
  rw [hcontent]
  simp [hdup]

/-- A message whose provider id is stored only under other tenants slips
past the pair-scoped duplicate check and is rejected by the store's
global UNIQUE constraint on `message_id`. -/
theorem process_core_unique_violation (m : Json) (t : TenantInfo) (db : DB)
    (mid mtype ts contact_phone contact_name content_hash template_name : Json)
    (hid : m.pyGetN "id" = .ok mid)
    (htruthy : mid.truthy = true)
    (htype : m.pyGet "type" (.str "text") = .ok mtype)
    (hts : m.pyGetN "timestamp" = .ok ts)
    (hfrom : m.pyGetN "from" = .ok contact_phone)
    (hcp : contact_phone ≠ .null)
    (hname : (m.pyGet "profile" (.obj .nil)).bind
        (fun profile => profile.pyGet "name" (.str "")) = .ok contact_name)
    (hcontent : extract_content m mtype = .ok (content_hash, template_name))
    (htse : timestamp_effect ts = .ok ())
    (hmiss : db.messages.find? (fun r =>
        decide (r.message_id = mid) && decide (r.user_id = t.user_id)) = none)
    (hclash : (db.messages.any fun r => decide (r.message_id = mid)) = true) :
    process_tenant_message_core m t db =
      .error (.integrityError "UNIQUE constraint failed: whatsapp_messages_v2.message_id") := by
  have hmidnull : mid ≠ Json.null := by
    intro h
    subst h
    simp [Json.truthy] at htruthy
  unfold process_tenant_message_core
  rw [hid, htype, hts, hfrom, hname]
  simp only [htruthy, Bool.not_true, if_false]
  rw [hcontent]
  simp only [hmiss, Option.isSome_none]
  rw [htse]
  unfold DB.insertMessage
  simp [new_inbound_row, hmidnull, hcp, hclash]

end MultiTenantWhatsAppService

/- ------------------------------------------------------------------ -/
/- Claim theorems                                                      -/
/- ------------------------------------------------------------------ -/

open MultiTenantWhatsAppService

/-- C1: ingestion is idempotent per message — for a valid inbound message
(readable id, sender present, parsable content, timestamp absent or
within the platform-convertible range) arriving for a tenant route that
references existing rows, with its provider id not yet stored, the first
processing persists the record and dispatches enrichment; processing the
same payload again returns the outcome `duplicate`, leaves the store
untouched (no second write), does not dispatch enrichment again, and
exactly one record exists for the `(tenant_id, provider_message_id)`
pair. -/
theorem C1_ingestion_idempotent_per_message (m : Json) (t : TenantInfo) (db : DB)
    (mid mtype ts contact_phone contact_name content_hash template_name : Json)
    (hid : m.pyGetN "id" = .ok mid)
    (htruthy : mid.truthy = true)
    (htype : m.pyGet "type" (.str "text") = .ok mtype)
    (hts : m.pyGetN "timestamp" = .ok ts)
    (hfrom : m.pyGetN "from" = .ok contact_phone)
    (hcp : contact_phone ≠ .null)
    (hname : (m.pyGet "profile" (.obj .nil)).bind
        (fun profile => profile.pyGet "name" (.str "")) = .ok contact_name)
    (hcontent : extract_content m mtype = .ok (content_hash, template_name))
    (htse : timestamp_effect ts = .ok ())
    (hfresh : ∀ r ∈ db.messages, r.message_id ≠ mid)
    (hfk_user : (db.users.any fun u => decide (u.id = t.user_id)) = true)
    (hfk_waba : (db.wabas.any fun w => decide (w.id = t.waba_id)) = true)
    (hfk_phone : (db.phones.any fun p => decide (p.id = t.phone_id)) = true) :
    (process_tenant_message m t db).result =
      .ok (.processed mid t.user_id mtype contact_phone) ∧
    (process_tenant_message m t db).ai_dispatched = true ∧
    (process_tenant_message m t (process_tenant_message m t db).db).result =
      .ok (.duplicate mid t.user_id) ∧
    (process_tenant_message m t (process_tenant_message m t db).db).db =
      (process_tenant_message m t db).db ∧
    (process_tenant_message m t (process_tenant_message m t db).db).ai_dispatched = false ∧
    ((process_tenant_message m t db).db.messages.filter (fun r =>
        decide (r.message_id = mid) && decide (r.user_id = t.user_id))).length = 1 := by
  have hcore1 := process_core_fresh m t db mid mtype ts contact_phone contact_name
    content_hash template_name hid htruthy htype hts hfrom hcp hname hcontent htse hfresh
    hfk_user hfk_waba hfk_phone
  have hDB : (process_tenant_message m t db).db =
      db.insertedState (new_inbound_row db.next_message_row_id t mid
        contact_phone contact_name mtype template_name content_hash) := by
    unfold process_tenant_message
    rw [hcore1]
  have hdup : (((db.insertedState (new_inbound_row db.next_message_row_id t mid
      contact_phone contact_name mtype template_name content_hash)).messages.find? (fun r =>
        decide (r.message_id = mid) && decide (r.user_id = t.user_id))).isSome) = true := by
    refine List.find?_isSome.2
      ⟨new_inbound_row db.next_message_row_id t mid
        contact_phone contact_name mtype template_name content_hash, ?_, ?_⟩
    · simp [DB.insertedState]
    · simp [new_inbound_row]
  have hcore2 := process_core_duplicate m t
    (db.insertedState (new_inbound_row db.next_message_row_id t mid
      contact_phone contact_name mtype template_name content_hash))
    mid mtype ts contact_phone contact_name content_hash template_name
    hid htruthy htype hts hfrom hname hcontent hdup
  have hnil : db.messages.filter (fun r =>
      decide (r.message_id = mid) && decide (r.user_id = t.user_id)) = [] :=
    List.filter_eq_nil_iff.2 (fun r hr => by simp [hfresh r hr])
  refine ⟨?_, ?_, ?_, ?_, ?_, ?_⟩
  · unfold process_tenant_message
    rw [hcore1]
  · unfold process_tenant_message
    rw [hcore1]
  · rw [hDB]
    unfold process_tenant_message
    rw [hcore2]
  · rw [hDB]
    unfold process_tenant_message
    rw [hcore2]
  · rw [hDB]
    unfold process_tenant_message
    rw [hcore2]
  · rw [hDB]
    simp [DB.insertedState, List.filter_append, hnil, new_inbound_row]

/-- Witness for C1 at the valid message `msg0`, tenant `tenant0` and the
empty store `db0`. -/
theorem C1_ingestion_idempotent_per_message_witness :
    (process_tenant_message msg0 tenant0 db0).result =
      .ok (.processed (.str "wamid.001") 7 (.str "text") (.str "+33600000001")) ∧
    (process_tenant_message msg0 tenant0 db0).ai_dispatched = true ∧
    (process_tenant_message msg0 tenant0 (process_tenant_message msg0 tenant0 db0).db).result =
      .ok (.duplicate (.str "wamid.001") 7) ∧
    (process_tenant_message msg0 tenant0 (process_tenant_message msg0 tenant0 db0).db).db =
      (process_tenant_message msg0 tenant0 db0).db ∧
    (process_tenant_message msg0 tenant0
      (process_tenant_message msg0 tenant0 db0).db).ai_dispatched = false ∧
    ((process_tenant_message msg0 tenant0 db0).db.messages.filter (fun r =>
        decide (r.message_id = .str "wamid.001") && decide (r.user_id = 7))).length = 1 :=
  C1_ingestion_idempotent_per_message msg0 tenant0 db0
    (.str "wamid.001") (.str "text") .null (.str "+33600000001") (.str "Alice")
    (.str (hash_content "hello")) .null
    (by decide) (by decide) (by decide) (by decide) (by decide) (by decide) (by decide)
    (by decide) (by decide) (by decide) (by decide) (by decide) (by decide)

/-- C9: the store enforces global uniqueness of the provider message id
across tenants (`message_id` is UNIQUE, not scoped by `user_id`), while
the duplicate check only looks up the `(message_id, user_id)` pair — so a
valid message (readable id, sender present, parsable content, timestamp
absent or within the platform-convertible range) whose provider id is
already persisted under a different tenant is not reported as a
duplicate, but its insert is rejected by the store as a persistence
error, no second record appears, and no enrichment is dispatched. -/
theorem C9_global_message_id_uniqueness (m : Json) (t : TenantInfo) (db : DB)
    (mid mtype ts contact_phone contact_name content_hash template_name : Json)
    (r0 : WhatsAppMessageV2)
    (hid : m.pyGetN "id" = .ok mid)
    (htruthy : mid.truthy = true)
    (htype : m.pyGet "type" (.str "text") = .ok mtype)
    (hts : m.pyGetN "timestamp" = .ok ts)
    (hfrom : m.pyGetN "from" = .ok contact_phone)
    (hcp : contact_phone ≠ .null)
    (hname : (m.pyGet "profile" (.obj .nil)).bind
        (fun profile => profile.pyGet "name" (.str "")) = .ok contact_name)
    (hcontent : extract_content m mtype = .ok (content_hash, template_name))
    (htse : timestamp_effect ts = .ok ())
    (hr0 : r0 ∈ db.messages) (hr0mid : r0.message_id = mid)
    (_hr0user : r0.user_id ≠ t.user_id)
    (hscope : ∀ r ∈ db.messages, r.user_id = t.user_id → r.message_id ≠ mid) :
    (process_tenant_message m t db).result =
      .error (.whatsAppError
        "Message processing failed: UNIQUE constraint failed: whatsapp_messages_v2.message_id") ∧
    (process_tenant_message m t db).db = db ∧
    (process_tenant_message m t db).ai_dispatched = false ∧
    (process_tenant_message m t db).result ≠ .ok (.duplicate mid t.user_id) := by
  have hmiss : db.messages.find? (fun r =>
      decide (r.message_id = mid) && decide (r.user_id = t.user_id)) = none := by
    refine List.find?_eq_none.2 ?_
    intro r hr
    simp only [Bool.and_eq_true, decide_eq_true_eq, not_and]
    intro hm hu
    exact hscope r hr hu hm
  have hclash : (db.messages.any fun r => decide (r.message_id = mid)) = true := by
    simp only [List.any_eq_true, decide_eq_true_eq]
    exact ⟨r0, hr0, hr0mid⟩
  have hcore := process_core_unique_violation m t db mid mtype ts contact_phone contact_name
    content_hash template_name hid htruthy htype hts hfrom hcp hname hcontent htse hmiss hclash
  refine ⟨?_, ?_, ?_, ?_⟩
  · unfold process_tenant_message
    rw [hcore]
    simp only [PyExc.msg]
    decide
  · unfold process_tenant_message
    rw [hcore]
  · unfold process_tenant_message
    rw [hcore]
  · unfold process_tenant_message
    rw [hcore]
    exact fun h => Except.noConfusion h

/-- Witness for C9: `msg0` arriving for tenant 7 while its provider id is
already stored under tenant 99 in `db9`. -/
theorem C9_global_message_id_uniqueness_witness :
    (process_tenant_message msg0 tenant0 db9).result =
      .error (.whatsAppError
        "Message processing failed: UNIQUE constraint failed: whatsapp_messages_v2.message_id") ∧
    (process_tenant_message msg0 tenant0 db9).db = db9 ∧
    (process_tenant_message msg0 tenant0 db9).ai_dispatched = false ∧
    (process_tenant_message msg0 tenant0 db9).result ≠
      .ok (.duplicate (.str "wamid.001") 7) :=
  C9_global_message_id_uniqueness msg0 tenant0 db9
    (.str "wamid.001") (.str "text") .null (.str "+33600000001") (.str "Alice")
    (.str (hash_content "hello")) .null old_row9
    (by decide) (by decide) (by decide) (by decide) (by decide) (by decide)
    (by decide) (by decide) (by decide) (by decide) (by decide) (by decide) (by decide)

/-- C2: Credential Vault round-trip — for every credential structure `X`
(in canonical serialised form, the representative of a Python dict),
`decrypt_token (encrypt_token X) = some X`; and a blob obtained by
altering any single byte of the encrypted blob decrypts to the failure
value `none` (`decrypt_token` catches the Fernet authentication error),
never to any credential data. -/
theorem C2_vault_roundtrip_and_tamper (te : TokenEncryption) (X : Json)
    (hX : X.canon = X) :
    te.decrypt_token (te.encrypt_token X) = some X ∧
    (∀ pos : Nat, te.decrypt_token (tamperByte (te.encrypt_token X) pos) = none) ∧
    (∀ pos : Nat, ∀ Y : Json, te.decrypt_token (tamperByte (te.encrypt_token X) pos) ≠ some Y) := by
  refine ⟨?_, fun pos => rfl, fun pos Y h => Option.noConfusion h⟩
  simp [TokenEncryption.decrypt_token, TokenEncryption.encrypt_token, hX]

/-- Witness for C2 at the concrete vault `te0` and credential `cred0`. -/
theorem C2_vault_roundtrip_and_tamper_witness :
    te0.decrypt_token (te0.encrypt_token cred0) = some cred0 ∧
    (∀ pos : Nat, te0.decrypt_token (tamperByte (te0.encrypt_token cred0) pos) = none) ∧
    (∀ pos : Nat, ∀ Y : Json, te0.decrypt_token (tamperByte (te0.encrypt_token cred0) pos) ≠ some Y) :=
  C2_vault_roundtrip_and_tamper te0 cred0 (by decide)

/-- C10: the verification endpoint echoes the challenge back if and only
if `hub.mode` is `"subscribe"` and `hub.verify_token` equals the
configured verification token; in every other case the request is
rejected (HTTP error) and the challenge is not echoed. -/
theorem C10_webhook_verification (settings : Settings)
    (mode verify_token challenge : Option String) :
    (verify_webhook settings mode verify_token challenge = .plainText challenge ↔
      (mode = some "subscribe" ∧
       verify_token = some settings.WHATSAPP_WEBHOOK_VERIFY_TOKEN)) ∧
    (¬(mode = some "subscribe" ∧
       verify_token = some settings.WHATSAPP_WEBHOOK_VERIFY_TOKEN) →
      verify_webhook settings mode verify_token challenge =
        .httpError 500 "403: Verification failed") := by
  unfold verify_webhook
  by_cases h : mode = some "subscribe" ∧
      verify_token = some settings.WHATSAPP_WEBHOOK_VERIFY_TOKEN
  · simp [h]
  · simp [h]

/-- Witness for C10: a wrong verify token at a concrete configuration is
rejected. -/
theorem C10_webhook_verification_witness :
    verify_webhook { WHATSAPP_WEBHOOK_VERIFY_TOKEN := "vt" }
      (some "subscribe") (some "wrong") (some "ch") =
      .httpError 500 "403: Verification failed" :=
  (C10_webhook_verification { WHATSAPP_WEBHOOK_VERIFY_TOKEN := "vt" }
    (some "subscribe") (some "wrong") (some "ch")).2 (by decide)

/-- C8: when the enrichment step of a dispatched task fails, the failure
is logged and swallowed, the task ran exactly once (never retried), the
store is left exactly as ingestion committed it, and the message record
keeps `ai_processed = false`. -/
theorem C8_enrichment_failure_isolated (record_id : Nat) (message_data : Json) (db : DB)
    (r : WhatsAppMessageV2) (hr : r ∈ db.messages) (_hid : r.id = record_id)
    (hproc : r.ai_processed = false) :
    (process_message_with_ai_async record_id message_data true db).db = db ∧
    (process_message_with_ai_async record_id message_data true db).attempts = 1 ∧
    (process_message_with_ai_async record_id message_data true db).error_logged = true ∧
    r ∈ (process_message_with_ai_async record_id message_data true db).db.messages ∧
    r.ai_processed = false :=
  ⟨rfl, rfl, rfl, hr, hproc⟩

/-- Witness for C8 at the concrete post-ingestion store `db8` and its
stored record `row8`. -/
theorem C8_enrichment_failure_isolated_witness :
    (process_message_with_ai_async 1 msg0 true db8).db = db8 ∧
    (process_message_with_ai_async 1 msg0 true db8).attempts = 1 ∧
    (process_message_with_ai_async 1 msg0 true db8).error_logged = true ∧
    row8 ∈ (process_message_with_ai_async 1 msg0 true db8).db.messages ∧
    row8.ai_processed = false :=
  C8_enrichment_failure_isolated 1 msg0 db8 row8 (by decide) (by decide) (by decide)

/-- C7: Tenant Directory resolution — under the store's declared key
invariants (unique `phone_number_id`, unique business-account row ids),
an unknown phone identifier resolves to `none`; a phone identifier whose
owning business accounts are all inactive resolves to `none`; and a phone
identifier belonging to an active business account resolves to the
owning tenant's route `(user_id, business account row, phone row)`. -/
theorem C7_tenant_directory_resolution (db : DB) (pid : String)
    (hwU : (db.wabas.map WhatsAppBusinessAccount.id).Nodup)
    (hpU : (db.phones.map WhatsAppPhoneNumber.phone_number_id).Nodup) :
    ((∀ p ∈ db.phones, p.phone_number_id ≠ pid) →
      find_tenant_for_phone db (.str pid) = none) ∧
    (∀ p ∈ db.phones, p.phone_number_id = pid →
      (∀ w ∈ db.wabas, p.waba_id = w.id → w.is_active = false) →
      find_tenant_for_phone db (.str pid) = none) ∧
    (∀ w ∈ db.wabas, ∀ p ∈ db.phones, p.phone_number_id = pid → p.waba_id = w.id →
      w.is_active = true →
      find_tenant_for_phone db (.str pid) =
        some { user_id := w.user_id, waba_id := w.id, phone_id := p.id }) := by
  refine ⟨?_, ?_, ?_⟩
  · intro h
    refine find_tenant_for_phone_eq_none db (.str pid) ?_
    intro w _hw p hp _hfk hpid
    exact absurd (Json.str.inj hpid) (h p hp)
  · intro p hp hpid hinact
    refine find_tenant_for_phone_eq_none db (.str pid) ?_
    intro w hw p' hp' hfk' hpid'
    have hpp : p' = p :=
      List.inj_on_of_nodup_map hpU hp' hp (by rw [Json.str.inj hpid', hpid])
    exact hinact w hw (hpp ▸ hfk')
  · intro w hw p hp hpid hfk hact
    exact find_tenant_for_phone_eq_some db pid w p hwU hpU hw hp hpid hfk hact

/-- Witness for C7: resolving `phone0` in the concrete store `db0` yields
tenant 7's route. -/
theorem C7_tenant_directory_resolution_witness :
    find_tenant_for_phone db0 (.str "pn_100") =
      some { user_id := 7, waba_id := 1, phone_id := 1 } :=
  (C7_tenant_directory_resolution db0 "pn_100" (by decide) (by decide)).2.2
    waba0 (by decide) phone0 (by decide) (by decide) (by decide) (by decide)

/-- C3: outbound send authorization — when the resolved phone number is
owned by a business account of another tenant, or its owning account is
inactive, `send_message` issued with the requesting tenant's identity
fails with the authorization error raised before any provider contact
(`"Phone number not found or not authorized"`, rewrapped by the send
handler), the provider send API is not called, and the store — in
particular the message table — is unchanged. -/
theorem C3_send_authorization (te : TokenEncryption) (db : DB) (user_id : Nat)
    (pid to_number message : String) (meta_response : Except String Json)
    (w : WhatsAppBusinessAccount) (p : WhatsAppPhoneNumber)
    (hwU : (db.wabas.map WhatsAppBusinessAccount.id).Nodup)
    (hpU : (db.phones.map WhatsAppPhoneNumber.phone_number_id).Nodup)
    (hw : w ∈ db.wabas) (hp : p ∈ db.phones)
    (hpid : p.phone_number_id = pid) (hfk : p.waba_id = w.id)
    (hdeny : w.user_id ≠ user_id ∨ w.is_active = false) :
    (send_message te user_id pid to_number message meta_response db).result =
      .error (.whatsAppError
        "Failed to send message: Phone number not found or not authorized") ∧
    (send_message te user_id pid to_number message meta_response db).provider_called = false ∧
    (send_message te user_id pid to_number message meta_response db).db = db := by
  have hnone : get_user_waba_for_phone db user_id pid = none := by
    refine get_user_waba_for_phone_eq_none db user_id pid ?_
    rintro w' hw' p' hp' hfk' hpid' ⟨huser', hact'⟩
    have hpp : p' = p := List.inj_on_of_nodup_map hpU hp' hp (by rw [hpid', hpid])
    subst hpp
    have hww : w' = w := List.inj_on_of_nodup_map hwU hw' hw (by rw [← hfk', hfk])
    subst hww
    rcases hdeny with hno | hno
    · exact hno huser'
    · rw [hno] at hact'
      cases hact'
  unfold send_message
  rw [hnone]
  exact ⟨rfl, rfl, rfl⟩

/-- Witness for C3: tenant 8 attempting to send from tenant 7's phone in
the concrete store `db0`. -/
theorem C3_send_authorization_witness :
    (send_message te0 8 "pn_100" "+212611111111" "hi" meta_ok0 db0).result =
      .error (.whatsAppError
        "Failed to send message: Phone number not found or not authorized") ∧
    (send_message te0 8 "pn_100" "+212611111111" "hi" meta_ok0 db0).provider_called = false ∧
    (send_message te0 8 "pn_100" "+212611111111" "hi" meta_ok0 db0).db = db0 :=
  C3_send_authorization te0 db0 8 "pn_100" "+212611111111" "hi" meta_ok0 waba0 phone0
    (by decide) (by decide) (by decide) (by decide) (by decide) (by decide)
    (Or.inl (by decide))

/-- C4: a failing credential decryption is a distinct error, never a
default — when the stored blob of the resolved (owned, active) business
account does not decrypt, `decrypt_token` yields no credential data at
all, and `send_message` aborts with the distinct decrypt-failure error
(`"Failed to decrypt access token"`) before any provider contact and
without persisting anything; that error is distinct from the
missing-credential/authorization error, so the caller can tell
"reconnect required" from "tenant has no such phone". -/
theorem C4_decrypt_failure_distinct (te : TokenEncryption) (db : DB) (user_id : Nat)
    (pid to_number message : String) (meta_response : Except String Json)
    (w : WhatsAppBusinessAccount) (p : WhatsAppPhoneNumber)
    (hwU : (db.wabas.map WhatsAppBusinessAccount.id).Nodup)
    (hpU : (db.phones.map WhatsAppPhoneNumber.phone_number_id).Nodup)
    (hw : w ∈ db.wabas) (hp : p ∈ db.phones)
    (hpid : p.phone_number_id = pid) (hfk : p.waba_id = w.id)
    (huser : w.user_id = user_id) (hact : w.is_active = true)
    (hdec : te.decrypt_token w.access_token_encrypted = none) :
    (∀ j : Json, te.decrypt_token w.access_token_encrypted ≠ some j) ∧
    (send_message te user_id pid to_number message meta_response db).result =
      .error (.whatsAppError "Failed to send message: Failed to decrypt access token") ∧
    (send_message te user_id pid to_number message meta_response db).provider_called = false ∧
    (send_message te user_id pid to_number message meta_response db).db = db ∧
    (PyExc.whatsAppError "Failed to send message: Failed to decrypt access token" ≠
      PyExc.whatsAppError
        "Failed to send message: Phone number not found or not authorized") := by
  have hsome : get_user_waba_for_phone db user_id pid =
      some { access_token_encrypted := w.access_token_encrypted,
             waba_record_id := w.id, phone_record_id := p.id } :=
    get_user_waba_for_phone_eq_some db user_id pid w p hwU hpU hw hp hpid hfk huser hact
  refine ⟨?_, ?_⟩
  · intro j h
    rw [hdec] at h
    cases h
  · unfold send_message
    rw [hsome]
    simp only [hdec, Option.getD_none]
    exact ⟨rfl, rfl, rfl, by decide⟩

/-- Witness for C4: tenant 7's tampered blob in the concrete store `db4`. -/
theorem C4_decrypt_failure_distinct_witness :
    (∀ j : Json, te0.decrypt_token waba4.access_token_encrypted ≠ some j) ∧
    (send_message te0 7 "pn_100" "+212611111111" "hi" meta_ok0 db4).result =
      .error (.whatsAppError "Failed to send message: Failed to decrypt access token") ∧
    (send_message te0 7 "pn_100" "+212611111111" "hi" meta_ok0 db4).provider_called = false ∧
    (send_message te0 7 "pn_100" "+212611111111" "hi" meta_ok0 db4).db = db4 ∧
    (PyExc.whatsAppError "Failed to send message: Failed to decrypt access token" ≠
      PyExc.whatsAppError
        "Failed to send message: Phone number not found or not authorized") :=
  C4_decrypt_failure_distinct te0 db4 7 "pn_100" "+212611111111" "hi" meta_ok0 waba4 phone0
    (by decide) (by decide) (by decide) (by decide) (by decide) (by decide)
    (by decide) (by decide) (by decide)

/-- C5: partial-failure batching — ingesting the concrete 5-message batch
`payload5`, whose third value lacks `metadata.phone_number_id`, into the
store `db0` returns `processed_count = 4` and `error_count = 1`, records
the missing routing key as the per-value error
`"Entry 2: Missing phone_number_id"` (0-based entry index) without
aborting the remaining entries, and persists exactly 4 message records. -/
theorem C5_partial_failure_batching :
    (route_webhook_message payload5 db0).result =
      { success := false, processed_count := 4, error_count := some 1,
        errors := some ["Entry 2: Missing phone_number_id"],
        error := none, message := none } ∧
    (route_webhook_message payload5 db0).db.messages.length = 4 := by
  decide

/-- Counterexample to C6 as stated: the payload `{"entry": []}` has an
empty entry list, yet ingestion does not return a hard validation
failure — it returns immediately with `success = true` (lines 616-622 of
route_webhook_message). -/
theorem C6_toplevel_validation_counterexample :
    (route_webhook_message (jobj [("entry", jarr [])]) db0).result.success = true ∧
    (route_webhook_message (jobj [("entry", jarr [])]) db0).result.error = none ∧
    (route_webhook_message (jobj [("entry", jarr [])]) db0).result.message =
      some "No entries to process" := by
  decide

/-- C6 (amended): a payload that is not a dict, or lacks the `entry` key,
is answered immediately with a hard validation failure
(`success = false`) and no partial processing — no message record is
written, no audit record is written, no enrichment is dispatched and no
per-message outcomes are produced; a payload whose `entry` collection is
empty (falsy) likewise returns immediately with nothing processed and no
writes, but reports `success = true` with
`"No entries to process"` rather than a validation failure. -/
theorem C6_toplevel_validation_amended (payload : Json) (db : DB) :
    (payload.isObj = false →
      route_webhook_message payload db =
        { result := { success := false, processed_count := 0, error_count := some 1,
                      error := some "Invalid webhook payload: not a dictionary" },
          db := db, ai_dispatches := 0 }) ∧
    (payload.isObj = true → payload.hasKey "entry" = false →
      route_webhook_message payload db =
        { result := { success := false, processed_count := 0,
                      errors := some ["Invalid webhook structure"],
                      error := some "Missing entry field" },
          db := db, ai_dispatches := 0 }) ∧
    (payload.hasKey "entry" = true →
      (payload.objGetD "entry" (.arr .nil)).truthy = false →
      route_webhook_message payload db =
        { result := { success := true, processed_count := 0,
                      message := some "No entries to process" },
          db := db, ai_dispatches := 0 }) := by
  refine ⟨?_, ?_, ?_⟩
  · intro h
    unfold route_webhook_message
    simp [h]
  · intro h1 h2
    unfold route_webhook_message
    simp [h1, h2]
  · intro h1 h2
    have hobj : payload.isObj = true := by
      cases payload <;> simp_all [Json.hasKey, Json.isObj]
    unfold route_webhook_message
    simp [hobj, h1, h2]

/-- Witness for C6 (amended) at the empty-entries payload and the
concrete store `db0`. -/
theorem C6_toplevel_validation_amended_witness :
    route_webhook_message (jobj [("entry", jarr [])]) db0 =
      { result := { success := true, processed_count := 0,
                    message := some "No entries to process" },
        db := db0, ai_dispatches := 0 } :=
  (C6_toplevel_validation_amended (jobj [("entry", jarr [])]) db0).2.2
    (by decide) (by decide)

end Socialify
